import Mathlib

/-!
Verification of the acquisition and contact-resolution pipeline of the
real-marketing scraper scripts.  Python dictionaries holding listing payloads
are embedded as records of `String` / `Option String` fields; the persistent
store (Prisma) is embedded as an explicit `DB` state threaded through each
operation.  Python truthiness of strings (empty string is falsy) is embedded
by `pyOr` / `strOrNone` / `truthy`.
-/

namespace RealMarketing

/-- Python `a or b` on strings: the left operand unless it is empty. -/
def pyOr (a b : String) : String := if a = "" then b else a

/-- Python `s or None`: an empty string becomes null. -/
def strOrNone (s : String) : Option String := if s = "" then none else some s

/-- Python truthiness of an optional string: `None` and `""` are falsy. -/
def truthy : Option String → Bool
  | none => false
  | some s => s ≠ ""

/-- The digit characters of a string, in order.  Embeds Python
`re.sub(r'[^\d]', '', match)` applied to `match`. -/
def digitsOf (s : String) : List Char := s.toList.filter (fun c => c.isDigit)

/-- Embeds the f-string `f"({phone[:3]}) {phone[3:6]}-{phone[6:10]}"` from
`zillow_complete_scraper.py` (lines 568/572) and
`scraper_api_contacts.py` (lines 89/93), at the level of character lists. -/
def formatPhoneDigits (p : List Char) : List Char :=
  '(' :: (p.take 3 ++ ')' :: ' ' :: ((p.drop 3).take 3 ++ '-' :: (p.drop 6).take 4))

/-- The per-match normalization step inside `extract_phone_numbers`
(`zillow_complete_scraper.py` lines 566-573, identical in
`scraper_api_contacts.py` lines 87-94): strip non-digits; a 10-digit result
is formatted, an 11-digit result starting with `1` drops the `1` and is
formatted, anything else yields no candidate. -/
def normalize_phone (m : String) : Option String :=
  let phone := digitsOf m
  if phone.length = 10 then some (String.mk (formatPhoneDigits phone))
  else if phone.length = 11 ∧ phone.head? = some '1' then
    some (String.mk (formatPhoneDigits (phone.drop 1)))
  else none

/-- C2: phone normalization strips all non-digit characters; a 10-digit
result is formatted as "(AAA) BBB-CCCC"; an 11-digit result whose first digit
is 1 drops that digit and is formatted identically; any input whose digit
count is neither 10 nor 11-with-leading-1 produces no candidate. -/
theorem C2_phone_normalization (s : String) :
    (∀ a b c d e f g h i j : Char,
      digitsOf s = [a, b, c, d, e, f, g, h, i, j] →
      normalize_phone s =
        some (String.mk ['(', a, b, c, ')', ' ', d, e, f, '-', g, h, i, j])) ∧
    (∀ a b c d e f g h i j : Char,
      digitsOf s = '1' :: [a, b, c, d, e, f, g, h, i, j] →
      normalize_phone s =
        some (String.mk ['(', a, b, c, ')', ' ', d, e, f, '-', g, h, i, j])) ∧
    ((digitsOf s).length ≠ 10 →
      ¬((digitsOf s).length = 11 ∧ (digitsOf s).head? = some '1') →
      normalize_phone s = none) := by
  refine ⟨?_, ?_, ?_⟩
  · intro a b c d e f g h i j hd
    simp only [normalize_phone, hd]
    rfl
  · intro a b c d e f g h i j hd
    simp only [normalize_phone, hd]
    rfl
  · intro h10 h11
    simp only [normalize_phone]
    rw [if_neg h10, if_neg h11]

/-- C2 witness: the four spec round-trip examples all normalize to
"(555) 123-4567", via `C2_phone_normalization` at concrete inputs. -/
theorem C2_witness :
    normalize_phone "555.123.4567" = some "(555) 123-4567" ∧
    normalize_phone "(555) 123-4567" = some "(555) 123-4567" ∧
    normalize_phone "5551234567" = some "(555) 123-4567" ∧
    normalize_phone "15551234567" = some "(555) 123-4567" :=
  ⟨(C2_phone_normalization "555.123.4567").1
      '5' '5' '5' '1' '2' '3' '4' '5' '6' '7' rfl,
   (C2_phone_normalization "(555) 123-4567").1
      '5' '5' '5' '1' '2' '3' '4' '5' '6' '7' rfl,
   (C2_phone_normalization "5551234567").1
      '5' '5' '5' '1' '2' '3' '4' '5' '6' '7' rfl,
   (C2_phone_normalization "15551234567").2.1
      '5' '5' '5' '1' '2' '3' '4' '5' '6' '7' rfl⟩

/-! ## Data model: the persistent store (Prisma Lead / Contact tables) -/

/-- The `ContactType` Prisma enum. -/
inductive ContactType where
  | AGENT
  | BROKER
  deriving Repr, DecidableEq

/-- One row of the Lead (listing) table, with the fields the scripts read or
write.  `contactIds` embeds the many-to-many `contacts` relation as seen from
the lead side. -/
structure Lead where
  id : Nat
  zid : String
  fullName : Option String := none
  phoneNumber : Option String := none
  address : Option String := none
  price : Option String := none
  beds : Option String := none
  link : Option String := none
  zipCode : String := "Unknown"
  region : String := ""
  source : String := "ZILLOW"
  contactFetchAttempts : Nat := 0
  contactIds : List Nat := []
  deriving Repr, DecidableEq

/-- One row of the Contact table. -/
structure Contact where
  id : Nat
  agentId : Option String := none
  name : Option String := none
  phoneNumber : Option String := none
  typ : ContactType := .AGENT
  licenseNo : Option String := none
  company : Option String := none
  deriving Repr, DecidableEq

/-- The persistent store: the two tables plus autoincrement counters. -/
structure DB where
  leads : List Lead := []
  contacts : List Contact := []
  nextLeadId : Nat := 1
  nextContactId : Nat := 1
  deriving Repr, DecidableEq

/-- Prisma `lead.find_unique(where={'zid': zpid})`. -/
def findLeadByZid (db : DB) (zpid : String) : Option Lead :=
  db.leads.find? (fun l => l.zid == zpid)

/-- Prisma `lead.find_unique(where={'id': id})`. -/
def findLeadById (db : DB) (id : Nat) : Option Lead :=
  db.leads.find? (fun l => l.id == id)

/-- Prisma `lead.update(where={'id': id}, data=...)`, embedded as a map over
the table. -/
def updateLead (db : DB) (id : Nat) (f : Lead → Lead) : DB :=
  { db with leads := db.leads.map (fun l => if l.id = id then f l else l) }

/-- Prisma `{'contacts': {'connect': {'id': contactId}}}` on a lead:
connecting an already-connected pair is a no-op. -/
def connectContact (db : DB) (leadId contactId : Nat) : DB :=
  updateLead db leadId (fun l =>
    if l.contactIds.contains contactId then l
    else { l with contactIds := l.contactIds ++ [contactId] })

/-- Prisma `contact.create`, returning the new row id. -/
def createContact (db : DB) (mk : Nat → Contact) : Nat × DB :=
  (db.nextContactId,
   { db with
      contacts := db.contacts ++ [mk db.nextContactId],
      nextContactId := db.nextContactId + 1 })

/-! ## Raw listing payloads and the listing upserts -/

/-- A raw listing record from the source client.  The scripts access every
field via `listing.get(key, '')` (or take `str(...)` of it), so each field is
embedded as a `String` with `""` standing for an absent key. -/
structure RawListing where
  zpid : String := ""
  addressZipcode : String := ""
  zipCode : String := ""
  addressCity : String := ""
  addressState : String := ""
  address : String := ""
  addressStreet : String := ""
  unformattedPrice : String := ""
  beds : String := ""
  detailUrl : String := ""
  deriving Repr, DecidableEq

/-- Status strings returned by the listing upserts. -/
inductive SaveStatus where
  | created
  | exists_
  | error
  | skip
  | timeout
  deriving Repr, DecidableEq

/-- The `listing_data` dict built by both listing upserts
(`pyzill_fetch_listings.py` lines 128-140, `zillow_complete_scraper.py`
lines 319-333; in the latter `fullName`/`phoneNumber` are null because
`contact_info` is hard-coded to `None` at line 315): every descriptive field
falls back through alternative keys and then to "Unknown" or null. -/
def mkLeadFromRaw (listing : RawListing) (id : Nat) : Lead :=
  { id := id
    zid := listing.zpid
    fullName := none
    phoneNumber := none
    address := strOrNone listing.address
    price := strOrNone listing.unformattedPrice
    beds := strOrNone listing.beds
    link := strOrNone listing.detailUrl
    zipCode := pyOr (pyOr listing.addressZipcode listing.zipCode) "Unknown"
    region := pyOr listing.addressCity "Unknown" ++ ", " ++
      pyOr listing.addressState "Unknown"
    contactFetchAttempts := 0 }

/-- `save_to_db` of `pyzill_fetch_listings.py` (lines 103-157): reject on a
missing `zpid`, return the existing row for a known `zid`, otherwise create a
new Lead with permissive field defaults (`contactFetchAttempts` starts at 0). -/
def save_to_db (listing : RawListing) (db : DB) : (SaveStatus × Option Nat) × DB :=
  let zpid := listing.zpid
  if zpid = "" then ((.error, none), db)
  else
    match findLeadByZid db zpid with
    | some existing => ((.exists_, some existing.id), db)
    | none =>
      ((.created, some db.nextLeadId),
       { db with leads := db.leads ++ [mkLeadFromRaw listing db.nextLeadId],
                 nextLeadId := db.nextLeadId + 1 })

/-- `save_listing_to_db` of `zillow_complete_scraper.py` (lines 281-340):
like `save_to_db` but it first consults the global run budget
(`state.is_timeout()`, passed here as `isTimeout`), and after the existence
check it skips any record whose `addressState` (defaulted to "Unknown") is
outside GA/LA/FL.  In the source `contact_info` is hard-coded to `None`
(line 315, the rapid-API call is commented out), so `fullName` and
`phoneNumber` are null and `contactFetchAttempts` starts at 0. -/
def save_listing_to_db (isTimeout : Bool) (listing : RawListing) (db : DB) :
    (SaveStatus × Option Nat) × DB :=
  if isTimeout then ((.timeout, none), db)
  else
    let zpid := listing.zpid
    if zpid = "" then ((.error, none), db)
    else
      match findLeadByZid db zpid with
      | some existing => ((.exists_, some existing.id), db)
      | none =>
        let state_code := pyOr listing.addressState "Unknown"
        if ¬ (state_code = "GA" ∨ state_code = "LA" ∨ state_code = "FL") then
          ((.skip, none), db)
        else
          ((.created, some db.nextLeadId),
           { db with leads := db.leads ++ [mkLeadFromRaw listing db.nextLeadId],
                     nextLeadId := db.nextLeadId + 1 })

/-- A store holds no lead with the given external identifier, stated on the
embedded find operation. -/
theorem findLeadByZid_eq_none {db : DB} {z : String}
    (h : ∀ ld ∈ db.leads, ld.zid ≠ z) : findLeadByZid db z = none := by
  simp only [findLeadByZid, List.find?_eq_none, beq_iff_eq]
  exact h

/-- On a store without the record's identifier, `save_to_db` creates the
mapped row under the next lead id. -/
theorem save_to_db_fresh {l : RawListing} {db : DB} (hz : l.zpid ≠ "")
    (hnone : findLeadByZid db l.zpid = none) :
    save_to_db l db = ((SaveStatus.created, some db.nextLeadId),
      { db with leads := db.leads ++ [mkLeadFromRaw l db.nextLeadId],
                nextLeadId := db.nextLeadId + 1 }) := by
  simp only [save_to_db, if_neg hz, hnone]

/-- On a store already holding the record's identifier, `save_to_db` returns
the existing row id and leaves the store unchanged. -/
theorem save_to_db_existing {l : RawListing} {db : DB} {e : Lead}
    (hz : l.zpid ≠ "") (hfound : findLeadByZid db l.zpid = some e) :
    save_to_db l db = ((SaveStatus.exists_, some e.id), db) := by
  simp only [save_to_db, if_neg hz, hfound]

/-- On a fresh in-state record with live budget, `save_listing_to_db`
creates the mapped row under the next lead id. -/
theorem save_listing_to_db_fresh {l : RawListing} {db : DB} (hz : l.zpid ≠ "")
    (hnone : findLeadByZid db l.zpid = none)
    (hst : pyOr l.addressState "Unknown" = "GA" ∨
           pyOr l.addressState "Unknown" = "LA" ∨
           pyOr l.addressState "Unknown" = "FL") :
    save_listing_to_db false l db = ((SaveStatus.created, some db.nextLeadId),
      { db with leads := db.leads ++ [mkLeadFromRaw l db.nextLeadId],
                nextLeadId := db.nextLeadId + 1 }) := by
  simp only [save_listing_to_db, Bool.false_eq_true, if_false, if_neg hz,
    hnone, if_neg (not_not_intro hst)]

/-- On a store already holding the record's identifier,
`save_listing_to_db` returns the existing row id and leaves the store
unchanged. -/
theorem save_listing_to_db_existing {l : RawListing} {db : DB} {e : Lead}
    (hz : l.zpid ≠ "") (hfound : findLeadByZid db l.zpid = some e) :
    save_listing_to_db false l db = ((SaveStatus.exists_, some e.id), db) := by
  simp only [save_listing_to_db, Bool.false_eq_true, if_false, if_neg hz, hfound]

/-- Appending the freshly created row makes it findable by its identifier. -/
theorem findLeadByZid_after_create {db : DB} {l : RawListing} {n : Nat}
    (hnone : findLeadByZid db l.zpid = none) :
    findLeadByZid
      { db with leads := db.leads ++ [mkLeadFromRaw l n],
                nextLeadId := n + 1 } l.zpid = some (mkLeadFromRaw l n) := by
  simp only [findLeadByZid] at hnone ⊢
  rw [List.find?_append, hnone]
  simp [mkLeadFromRaw]

/-- C1 counterexample: the record `{zpid: "123"}` has a non-empty natural
identifier, yet `save_listing_to_db` (with the run budget live) returns
"skip" on the first call — not "created" — because its defaulted
`addressState` "Unknown" is outside GA/LA/FL; the second call does not
return "exists" and no Listing row exists afterwards. -/
theorem C1_counterexample :
    let l : RawListing := { zpid := "123" }
    let r1 := save_listing_to_db false l {}
    let r2 := save_listing_to_db false l r1.2
    l.zpid ≠ "" ∧
    r1.1.1 = SaveStatus.skip ∧ r1.1.1 ≠ SaveStatus.created ∧
    r2.1.1 ≠ SaveStatus.exists_ ∧
    (r2.2.leads.filter (fun x => x.zid == l.zpid)).length = 0 := by
  decide

/-- C1 (amended): for a raw listing with a non-empty zpid not yet in the
store, running the pyzill `save_to_db` twice returns "created" then "exists"
with the same row id and leaves exactly one row for that identifier; the
`save_listing_to_db` variant behaves identically provided additionally the
record's `addressState` is GA, LA or FL and the run budget is not exhausted. -/
theorem C1_upsert_idempotent (l : RawListing) (db : DB)
    (hz : l.zpid ≠ "")
    (hfresh : ∀ ld ∈ db.leads, ld.zid ≠ l.zpid) :
    ((save_to_db l db).1 = (SaveStatus.created, some db.nextLeadId) ∧
     (save_to_db l (save_to_db l db).2).1 =
        (SaveStatus.exists_, some db.nextLeadId) ∧
     ((save_to_db l (save_to_db l db).2).2.leads.filter
        (fun x => x.zid == l.zpid)).length = 1) ∧
    ((l.addressState = "GA" ∨ l.addressState = "LA" ∨ l.addressState = "FL") →
     (save_listing_to_db false l db).1 =
        (SaveStatus.created, some db.nextLeadId) ∧
     (save_listing_to_db false l (save_listing_to_db false l db).2).1 =
        (SaveStatus.exists_, some db.nextLeadId) ∧
     ((save_listing_to_db false l (save_listing_to_db false l db).2).2.leads.filter
        (fun x => x.zid == l.zpid)).length = 1) := by
  have hnone : findLeadByZid db l.zpid = none := findLeadByZid_eq_none hfresh
  have hfilter : db.leads.filter (fun x => x.zid == l.zpid) = [] := by
    simp only [List.filter_eq_nil_iff, beq_iff_eq]
    exact hfresh
  constructor
  · rw [save_to_db_fresh hz hnone]
    rw [save_to_db_existing hz (findLeadByZid_after_create hnone)]
    refine ⟨rfl, rfl, ?_⟩
    simp [List.filter_append, hfilter, mkLeadFromRaw]
  · intro hst
    have hstate : pyOr l.addressState "Unknown" = "GA" ∨
        pyOr l.addressState "Unknown" = "LA" ∨
        pyOr l.addressState "Unknown" = "FL" := by
      rcases hst with h | h | h <;> rw [h] <;> simp [pyOr]
    rw [save_listing_to_db_fresh hz hnone hstate]
    rw [save_listing_to_db_existing hz (findLeadByZid_after_create hnone)]
    refine ⟨rfl, rfl, ?_⟩
    simp [List.filter_append, hfilter, mkLeadFromRaw]

/-- C1 witness: `C1_upsert_idempotent` applied to the concrete record
`{zpid: "42", addressState: "GA"}` over the empty store. -/
theorem C1_witness :
    (save_to_db { zpid := "42", addressState := "GA" } {}).1 =
      (SaveStatus.created, some 1) ∧
    (save_listing_to_db false { zpid := "42", addressState := "GA" }
        (save_listing_to_db false { zpid := "42", addressState := "GA" } {}).2).1 =
      (SaveStatus.exists_, some 1) :=
  ⟨(C1_upsert_idempotent { zpid := "42", addressState := "GA" } {}
      (by decide) (by intro ld h; simp at h)).1.1,
   ((C1_upsert_idempotent { zpid := "42", addressState := "GA" } {}
      (by decide) (by intro ld h; simp at h)).2 (Or.inl rfl)).2.1⟩

/-- C6 counterexample: the record `{zpid: "777"}` carries a non-empty natural
identifier, and all its other fields default — yet `save_listing_to_db`
rejects it (status "skip", no row created), because the defaulted
`addressState` "Unknown" fails the GA/LA/FL filter.  A missing natural
identifier is therefore not the only unconditional rejection. -/
theorem C6_counterexample :
    let l : RawListing := { zpid := "777" }
    let r := save_listing_to_db false l {}
    l.zpid ≠ "" ∧ r.1 = (SaveStatus.skip, none) ∧ r.2 = ({} : DB) := by
  decide

/-- C6 (amended): the pyzill `save_to_db` rejects unconditionally only on a
missing zpid and otherwise creates the row with permissive defaults
(sentinel "Unknown" / null); the `save_listing_to_db` variant additionally
skips any record whose `addressState` (after defaulting to "Unknown") is
outside GA/LA/FL. -/
theorem C6_permissive_upsert (l : RawListing) (db : DB) :
    (l.zpid = "" → save_to_db l db = ((SaveStatus.error, none), db)) ∧
    (l.zpid ≠ "" → findLeadByZid db l.zpid = none →
      (save_to_db l db).1.1 = SaveStatus.created) ∧
    (l.zpid ≠ "" → findLeadByZid db l.zpid = none →
      (save_listing_to_db false l db).1.1 =
        (if pyOr l.addressState "Unknown" = "GA" ∨
            pyOr l.addressState "Unknown" = "LA" ∨
            pyOr l.addressState "Unknown" = "FL"
         then SaveStatus.created else SaveStatus.skip)) ∧
    ((save_to_db { zpid := "z" } {}).2.leads =
      [{ id := 1, zid := "z", zipCode := "Unknown",
         region := "Unknown, Unknown", contactFetchAttempts := 0 }]) := by
  refine ⟨?_, ?_, ?_, by decide⟩
  · intro hz
    simp [save_to_db, hz]
  · intro hz hnone
    simp only [save_to_db, if_neg hz, hnone]
  · intro hz hnone
    simp only [save_listing_to_db, if_neg hz, hnone, Bool.false_eq_true, if_false]
    by_cases hst : pyOr l.addressState "Unknown" = "GA" ∨
        pyOr l.addressState "Unknown" = "LA" ∨
        pyOr l.addressState "Unknown" = "FL"
    · rw [if_pos hst, if_neg (not_not_intro hst)]
    · rw [if_neg hst, if_pos hst]

/-- C6 witness: `C6_permissive_upsert` applied to the concrete record
`{zpid: "9"}` over the empty store. -/
theorem C6_witness :
    (save_to_db { zpid := "9" } ({} : DB)).1.1 = SaveStatus.created ∧
    (save_listing_to_db false { zpid := "9" } ({} : DB)).1.1 = SaveStatus.skip :=
  ⟨(C6_permissive_upsert { zpid := "9" } {}).2.1 (by decide) rfl,
   ((C6_permissive_upsert { zpid := "9" } {}).2.2.1 (by decide) rfl).trans
     (by decide)⟩

/-! ## Eligibility selections for contact resolution -/

/-- The `where` clause of the `find_many` in `process_zillow_leads`
(`scraper_api_contacts.py` lines 301-313): source ZILLOW, no contacts,
fewer than 5 attempts, non-null link. -/
def process_zillow_leads_filter (db : DB) : List Lead :=
  db.leads.filter (fun l =>
    l.source == "ZILLOW" && l.contactIds.isEmpty &&
    decide (l.contactFetchAttempts < 5) && l.link.isSome)

/-- The full selection of `process_zillow_leads`, including `take=15`. -/
def process_zillow_leads_query (db : DB) : List Lead :=
  (process_zillow_leads_filter db).take 15

/-- The `where` clause of the `find_many` in `process_zillow_contacts`
(`zillow_complete_scraper.py` lines 854-864): source ZILLOW, no contacts,
fewer than 1 attempt, non-null link, capped at `MAX_CONTACTS_TO_PROCESS = 8`. -/
def process_zillow_contacts_query (db : DB) : List Lead :=
  (db.leads.filter (fun l =>
    l.source == "ZILLOW" && l.contactIds.isEmpty &&
    decide (l.contactFetchAttempts < 1) && l.link.isSome)).take 8

/-- The `find_many` of `update_missing_phone_numbers`
(`pyzill_fetch_listings.py` lines 163-172): no contacts and fewer than 3
attempts — the query places no condition on the link. -/
def update_missing_phone_numbers_query (db : DB) : List Lead :=
  db.leads.filter (fun l =>
    l.contactIds.isEmpty && decide (l.contactFetchAttempts < 3))

/-- The leads `update_missing_phone_numbers` actually attempts: the in-loop
`if not lead.link: ... continue` (lines 194-197) skips link-less leads
before any increment or fetch. -/
def pyzill_leads_attempted (db : DB) : List Lead :=
  (update_missing_phone_numbers_query db).filter (fun l => truthy l.link)

/-- C3 counterexample: a lead with no contacts, zero attempts and a null
link is returned by the pyzill eligibility selection, so not every listing
returned by the eligibility selection carries a usable detail URL. -/
theorem C3_counterexample :
    let l0 : Lead := { id := 1, zid := "z1" }
    let db : DB := { leads := [l0] }
    l0 ∈ update_missing_phone_numbers_query db ∧ l0.link = none ∧
    l0.contactIds = [] ∧ l0.contactFetchAttempts < 3 := by
  decide

/-- C3 (amended): the scraper_api and zillow_complete selections return only
leads with zero linked Contacts, attempts below their ceiling (5 resp. 1)
and a non-null link, and every lead of the filter meeting those conditions
(with source ZILLOW) is in it; the pyzill query omits the link condition,
but the leads it actually attempts (after the in-loop skip) again satisfy
all three conditions. -/
theorem C3_eligibility (db : DB) (l : Lead) :
    (l ∈ process_zillow_leads_query db →
       l.contactIds = [] ∧ l.contactFetchAttempts < 5 ∧ l.link ≠ none) ∧
    (l ∈ process_zillow_contacts_query db →
       l.contactIds = [] ∧ l.contactFetchAttempts < 1 ∧ l.link ≠ none) ∧
    (l ∈ pyzill_leads_attempted db →
       l.contactIds = [] ∧ l.contactFetchAttempts < 3 ∧ l.link ≠ none) ∧
    (l ∈ db.leads → l.source = "ZILLOW" → l.contactIds = [] →
       l.contactFetchAttempts < 5 → l.link ≠ none →
       l ∈ process_zillow_leads_filter db) := by
  refine ⟨?_, ?_, ?_, ?_⟩
  · intro hm
    have h2 : l ∈ process_zillow_leads_filter db :=
      List.take_subset _ _ hm
    simp only [process_zillow_leads_filter, List.mem_filter, Bool.and_eq_true,
      beq_iff_eq, List.isEmpty_iff, decide_eq_true_eq,
      Option.isSome_iff_ne_none] at h2
    exact ⟨h2.2.1.1.2, h2.2.1.2, h2.2.2⟩
  · intro hm
    have h2 := List.take_subset _ _ hm
    simp only [List.mem_filter, Bool.and_eq_true, beq_iff_eq,
      List.isEmpty_iff, decide_eq_true_eq, Option.isSome_iff_ne_none] at h2
    exact ⟨h2.2.1.1.2, h2.2.1.2, h2.2.2⟩
  · intro hm
    simp only [pyzill_leads_attempted, update_missing_phone_numbers_query,
      List.mem_filter, Bool.and_eq_true, List.isEmpty_iff,
      decide_eq_true_eq] at hm
    refine ⟨hm.1.2.1, hm.1.2.2, ?_⟩
    have := hm.2
    cases hl : l.link with
    | none => rw [hl] at this; exact absurd this (by simp [truthy])
    | some s => simp [hl]
  · intro hmem hsrc hcontacts hatt hlink
    simp only [process_zillow_leads_filter, List.mem_filter, Bool.and_eq_true,
      beq_iff_eq, List.isEmpty_iff, decide_eq_true_eq,
      Option.isSome_iff_ne_none]
    exact ⟨hmem, ⟨⟨hsrc, hcontacts⟩, hatt⟩, hlink⟩

/-- C3 witness: `C3_eligibility` applied to a concrete store and its one
eligible lead. -/
theorem C3_witness :
    let l1 : Lead := { id := 1, zid := "z1", link := some "http://x" }
    l1 ∈ process_zillow_leads_query { leads := [l1] } ∧
    l1.contactIds = [] ∧ l1.contactFetchAttempts < 5 ∧ l1.link ≠ none :=
  ⟨by decide,
  (C3_eligibility { leads := [{ id := 1, zid := "z1", link := some "http://x" }] }
      { id := 1, zid := "z1", link := some "http://x" }).1 (by decide)⟩

/-! ## Contact creation / reconciliation paths -/

/-- The `agent_info` dict produced by `extract_agent_info` in
`scraper_api_contacts.py` (names, phones, companies). -/
structure AgentInfo where
  names : List String := []
  phones : List String := []
  companies : List String := []
  deriving Repr, DecidableEq

/-- `create_contacts_from_scraped_data` of `scraper_api_contacts.py`
(lines 234-290): pair names with phones up to the shorter list, then one
contact per remaining phone; every contact is freshly created (the function
performs no lookup against existing Contacts) and connected to the lead. -/
def sapi_create_contacts (db : DB) (leadId : Nat) (info : AgentInfo) : DB :=
  let db1 := (info.names.zip info.phones).foldl
    (fun d (p : String × String) =>
      let r := createContact d (fun i =>
        { id := i, name := some p.1, phoneNumber := some p.2,
          typ := .AGENT, company := info.companies.head? })
      connectContact r.2 leadId r.1) db
  let remaining := info.phones.drop (info.names.zip info.phones).length
  remaining.foldl
    (fun d phone =>
      let r := createContact d (fun i =>
        { id := i, phoneNumber := some phone,
          typ := .AGENT, company := info.companies.head? })
      connectContact r.2 leadId r.1) db1

/-- One entry of the `contacts_data` list consumed by
`create_contacts_from_scraped_data` in `zillow_complete_scraper.py`. -/
structure ScrapedContact where
  name : Option String := none
  phone : Option String := none
  company : Option String := none
  deriving Repr, DecidableEq

/-- The per-entry step of `create_contacts_from_scraped_data` in
`zillow_complete_scraper.py` (lines 729-781): skip entries without a truthy
phone; link the first existing Contact with that phone if one exists;
otherwise create a new Contact (name/company only when truthy) and connect
it. -/
def cc_create_one (db : DB) (leadId : Nat) (ci : ScrapedContact) : DB :=
  if truthy ci.phone then
    match db.contacts.find? (fun c => c.phoneNumber == ci.phone) with
    | some ex => connectContact db leadId ex.id
    | none =>
      let r := createContact db (fun i =>
        { id := i
          phoneNumber := ci.phone
          typ := .AGENT
          name := if truthy ci.name then ci.name else none
          company := if truthy ci.company then ci.company else none })
      connectContact r.2 leadId r.1
  else db

/-- The whole loop of `create_contacts_from_scraped_data`
(`zillow_complete_scraper.py` lines 723-783). -/
def cc_create_contacts (db : DB) (leadId : Nat) (cis : List ScrapedContact) : DB :=
  cis.foldl (fun d ci => cc_create_one d leadId ci) db

/-- No two Contact rows of the table share a phone number. -/
def PhoneUnique (cs : List Contact) : Prop :=
  cs.Pairwise (fun a b => a.phoneNumber ≠ b.phoneNumber)

/-- Connecting a contact to a lead does not change the Contact table. -/
theorem connectContact_contacts (db : DB) (leadId cid : Nat) :
    (connectContact db leadId cid).contacts = db.contacts := rfl

/-- The zillow_complete per-entry step preserves phone uniqueness. -/
theorem cc_create_one_phoneUnique (db : DB) (leadId : Nat) (ci : ScrapedContact)
    (h : PhoneUnique db.contacts) :
    PhoneUnique (cc_create_one db leadId ci).contacts := by
  rw [cc_create_one]
  by_cases hph : truthy ci.phone
  · rw [if_pos hph]
    cases hf : db.contacts.find? (fun c => c.phoneNumber == ci.phone) with
    | some ex => rw [connectContact_contacts]; exact h
    | none =>
      rw [connectContact_contacts]
      simp only [createContact, PhoneUnique, List.pairwise_append,
        List.mem_singleton]
      refine ⟨h, by simp, ?_⟩
      intro a ha b hb
      rw [hb]
      have := List.find?_eq_none.mp hf a ha
      simpa [beq_iff_eq] using this
  · rw [if_neg hph]
    exact h

/-- C5 counterexample: two candidates with the same phone and no agentId,
reconciled for two different listings through the scraper_api
`create_contacts_from_scraped_data`, produce two Contact rows sharing the
same phoneNumber (both without agentId) — the second is created, not linked. -/
theorem C5_counterexample :
    let info : AgentInfo := { phones := ["(555) 123-4567"] }
    let db0 : DB :=
      { leads := [{ id := 1, zid := "a" }, { id := 2, zid := "b" }],
        nextLeadId := 3 }
    let db2 := sapi_create_contacts (sapi_create_contacts db0 1 info) 2 info
    (db2.contacts.map (fun c => (c.id, c.agentId, c.phoneNumber))) =
      [(1, none, some "(555) 123-4567"), (2, none, some "(555) 123-4567")] ∧
    (db2.leads.map Lead.contactIds) = [[1], [2]] := by
  decide

/-- C5 (amended): the zillow_complete reconciliation links an existing
Contact matched by phone instead of creating a new one (leaving the Contact
table unchanged), preserves phone uniqueness across any candidate list, and
only ever creates rows without an agentId; the scraper_api path performs no
lookup and can duplicate a phone (see the counterexample). -/
theorem C5_contact_dedup (db : DB) (leadId : Nat) (cis : List ScrapedContact)
    (h : PhoneUnique db.contacts) :
    PhoneUnique (cc_create_contacts db leadId cis).contacts ∧
    (∀ ci : ScrapedContact, truthy ci.phone = true →
      (∃ e ∈ db.contacts, e.phoneNumber = ci.phone) →
      (cc_create_one db leadId ci).contacts = db.contacts) ∧
    (∀ c ∈ (cc_create_contacts db leadId cis).contacts,
      c ∉ db.contacts → c.agentId = none) := by
  refine ⟨?_, ?_, ?_⟩
  · induction cis generalizing db with
    | nil => exact h
    | cons ci rest ih =>
      exact ih _ (cc_create_one_phoneUnique db leadId ci h)
  · intro ci hph ⟨e, he, hp⟩
    have hsome : (db.contacts.find? (fun c => c.phoneNumber == ci.phone)).isSome := by
      rw [List.find?_isSome]
      exact ⟨e, he, by simp [hp]⟩
    obtain ⟨ex, hex⟩ := Option.isSome_iff_exists.mp hsome
    rw [cc_create_one, if_pos hph, hex, connectContact_contacts]
  · clear h
    induction cis generalizing db with
    | nil =>
      intro c hc hnc
      exact absurd hc hnc
    | cons ci rest ih =>
      intro c hc hnc
      by_cases hmid : c ∈ (cc_create_one db leadId ci).contacts
      case neg =>
        exact ih (cc_create_one db leadId ci) c hc hmid
      case pos =>
        rw [cc_create_one] at hmid
        by_cases hph : truthy ci.phone
        · rw [if_pos hph] at hmid
          cases hf : db.contacts.find? (fun x => x.phoneNumber == ci.phone) with
          | some ex =>
            rw [hf, connectContact_contacts] at hmid
            exact absurd hmid hnc
          | none =>
            rw [hf, connectContact_contacts] at hmid
            simp only [createContact, List.mem_append, List.mem_singleton] at hmid
            rcases hmid with hmid | hmid
            · exact absurd hmid hnc
            · rw [hmid]
        · rw [if_neg hph] at hmid
          exact absurd hmid hnc

/-- C5 witness: `C5_contact_dedup` applied to a store holding one Contact
with phone "(555) 123-4567" and a matching candidate. -/
theorem C5_witness :
    (cc_create_one
      { leads := [{ id := 1, zid := "a" }],
        contacts := [{ id := 1, phoneNumber := some "(555) 123-4567" }],
        nextContactId := 2 }
      1 { phone := some "(555) 123-4567" }).contacts =
    [{ id := 1, phoneNumber := some "(555) 123-4567" }] :=
  (C5_contact_dedup
      { leads := [{ id := 1, zid := "a" }],
        contacts := [{ id := 1, phoneNumber := some "(555) 123-4567" }],
        nextContactId := 2 }
      1 [] (by simp [PhoneUnique])).2.1
    { phone := some "(555) 123-4567" } (by decide)
    ⟨{ id := 1, phoneNumber := some "(555) 123-4567" }, by simp, rfl⟩

/-! ## Structured contact entries and listing-level contact extraction -/

/-- One entry of `detail_data['contacts']` as consumed by
`update_missing_phone_numbers` in `pyzill_fetch_listings.py` (lines 228-274). -/
structure StructuredContact where
  agentId : Option String := none
  name : Option String := none
  phoneNumber : Option String := none
  typ : String := "AGENT"
  licenseNo : Option String := none
  company : Option String := none
  deriving Repr, DecidableEq

/-- The structured-contacts pass of `update_missing_phone_numbers`
(`pyzill_fetch_listings.py` lines 228-274 and 305-306): entries without a
truthy `phoneNumber` are skipped; an entry whose truthy `agentId` matches an
existing Contact connects that row and is dropped from the to-create list;
all remaining entries are created (and connected) after the scan, keeping
their own field values. -/
def update_missing_structured (db : DB) (leadId : Nat)
    (cds : List StructuredContact) : DB :=
  let scan := cds.foldl
    (fun (acc : DB × List StructuredContact) cd =>
      if truthy cd.phoneNumber then
        match (if truthy cd.agentId then
                 acc.1.contacts.find? (fun c => c.agentId == cd.agentId)
               else none) with
        | some ex => (connectContact acc.1 leadId ex.id, acc.2)
        | none => (acc.1, acc.2 ++ [cd])
      else acc)
    (db, [])
  scan.2.foldl
    (fun d cd =>
      let r := createContact d (fun i =>
        { id := i
          agentId := cd.agentId
          name := cd.name
          phoneNumber := cd.phoneNumber
          typ := if cd.typ = "AGENT" then .AGENT else .BROKER
          licenseNo := cd.licenseNo
          company := cd.company })
      connectContact r.2 leadId r.1)
    scan.1

/-- A value found under one of the agent keys of `hdpData.homeInfo`: either
a nested dict (with optional name/phone/id entries) or a bare string. -/
inductive HdpValue where
  | dict (name phone id : Option String)
  | str (s : String)
  deriving Repr, DecidableEq

/-- Python truthiness of an `hdpData.homeInfo` field value: a dict is truthy
when it has at least one of the scanned keys, a string when non-empty. -/
def hdpTruthy : HdpValue → Bool
  | .dict n p i => n.isSome || p.isSome || i.isSome
  | .str s => s ≠ ""

/-- The fields of a raw search-result listing that
`extract_contact_from_listing` (`pyzill_fetch_listings.py` lines 574-709)
reads; `none` stands for an absent key. -/
structure RawContactPayload where
  brokerName : Option String := none
  hdpListingAgent : Option HdpValue := none
  hdpAgent : Option HdpValue := none
  hdpBrokerName : Option HdpValue := none
  hdpListingBroker : Option HdpValue := none
  agentName : Option String := none
  listingAgentName : Option String := none
  contactName : Option String := none
  agentDisplayName : Option String := none
  phoneNumber : Option String := none
  agentPhoneNumber : Option String := none
  listingAgentPhone : Option String := none
  contactPhone : Option String := none
  phone : Option String := none
  agentId : Option String := none
  listingAgentId : Option String := none
  contactId : Option String := none
  deriving Repr, DecidableEq

/-- The `contact_info` dict being assembled by
`extract_contact_from_listing`. -/
structure ContactInfoAcc where
  name : Option String := none
  phoneNumber : Option String := none
  agentId : Option String := none
  company : Option String := none
  deriving Repr, DecidableEq

/-- One iteration of the `hdpData.homeInfo` field loop
(`pyzill_fetch_listings.py` lines 627-639): a truthy dict value copies its
present name/phone/id entries, a truthy string value becomes the name. -/
def applyHdp (acc : ContactInfoAcc) (v : Option HdpValue) : ContactInfoAcc :=
  match v with
  | some hv =>
    if hdpTruthy hv then
      match hv with
      | .dict n p i =>
        let acc1 := match n with
          | some x => { acc with name := some x }
          | none => acc
        let acc2 := match p with
          | some x => { acc1 with phoneNumber := some x }
          | none => acc1
        match i with
          | some x => { acc2 with agentId := some x }
          | none => acc2
      | .str s => { acc with name := some s }
    else acc
  | none => acc

/-- The first truthy value of an ordered key chain
(`if field in listing and listing[field]: ...; break`). -/
def firstTruthy (xs : List (Option String)) : Option String :=
  xs.findSome? (fun o => if truthy o then o else none)

/-- The `contact_info` assembly of `extract_contact_from_listing`
(`pyzill_fetch_listings.py` lines 614-659): brokerName seeds company and
name, the hdpData loop may overwrite name/phone/agentId, then the
name/phone/agentId key chains overwrite with their first truthy value. -/
def build_contact_info (p : RawContactPayload) : ContactInfoAcc :=
  let acc0 : ContactInfoAcc :=
    if truthy p.brokerName then { company := p.brokerName, name := p.brokerName }
    else {}
  let acc1 := applyHdp acc0 p.hdpListingAgent
  let acc2 := applyHdp acc1 p.hdpAgent
  let acc3 := applyHdp acc2 p.hdpBrokerName
  let acc4 := applyHdp acc3 p.hdpListingBroker
  let acc5 := match firstTruthy
      [p.agentName, p.listingAgentName, p.contactName, p.agentDisplayName] with
    | some v => { acc4 with name := some v }
    | none => acc4
  let acc6 := match firstTruthy
      [p.phoneNumber, p.agentPhoneNumber, p.listingAgentPhone,
       p.contactPhone, p.phone] with
    | some v => { acc5 with phoneNumber := some v }
    | none => acc5
  match firstTruthy [p.agentId, p.listingAgentId, p.contactId] with
  | some v => { acc6 with agentId := some v }
  | none => acc6

/-- `extract_contact_from_listing` (`pyzill_fetch_listings.py` lines
661-705): no candidate when neither phone nor name is truthy; a truthy name
without a phone receives the placeholder "000-000-0000"; a truthy agentId
matching an existing Contact links that row; otherwise a new Contact is
created and connected. -/
def extract_contact_from_listing (p : RawContactPayload) (leadId : Nat)
    (db : DB) : Option Contact × DB :=
  let ci0 := build_contact_info p
  if ¬ truthy ci0.phoneNumber ∧ ¬ truthy ci0.name then (none, db)
  else
    let ci := if ¬ truthy ci0.phoneNumber ∧ truthy ci0.name then
        { ci0 with phoneNumber := some "000-000-0000" }
      else ci0
    match (if truthy ci.agentId then
             db.contacts.find? (fun c => c.agentId == ci.agentId)
           else none) with
    | some ex => (some ex, connectContact db leadId ex.id)
    | none =>
      let r := createContact db (fun i =>
        { id := i
          agentId := ci.agentId
          name := ci.name
          phoneNumber := ci.phoneNumber
          typ := .AGENT
          company := ci.company })
      (some (r.2.contacts.getLast?.getD { id := r.1 }),
       connectContact r.2 leadId r.1)

/-- C7 counterexample: a payload carrying only a broker name (no phone under
any key) still produces a candidate contact through
`extract_contact_from_listing`, whose missing phone is replaced with the
placeholder "000-000-0000" — so a missing phone is not always dropped and is
sometimes defaulted. -/
theorem C7_counterexample :
    let p : RawContactPayload := { brokerName := some "Acme Realty Group" }
    let db0 : DB := { leads := [{ id := 1, zid := "a" }] }
    let r := extract_contact_from_listing p 1 db0
    p.phoneNumber = none ∧ p.phone = none ∧ p.agentPhoneNumber = none ∧
    p.listingAgentPhone = none ∧ p.contactPhone = none ∧
    (r.2.contacts.map (fun c => (c.phoneNumber, c.name, c.company))) =
      [(some "000-000-0000", some "Acme Realty Group",
        some "Acme Realty Group")] := by
  decide

/-- C7 (amended): in the structured-contacts pass every entry lacking a
truthy phone causes no store change (if no entry has one, the store is
untouched), and every Contact row the pass creates carries the phone of some
input entry with a truthy phone, unchanged; but the listing-level
extraction (`extract_contact_from_listing`) substitutes the placeholder
"000-000-0000" when the payload yields a name/company and no phone. -/
theorem C7_structured_contacts (db : DB) (leadId : Nat)
    (cds : List StructuredContact) :
    ((∀ cd ∈ cds, truthy cd.phoneNumber = false) →
      update_missing_structured db leadId cds = db) ∧
    (∀ c ∈ (update_missing_structured db leadId cds).contacts,
      c ∉ db.contacts →
      ∃ cd ∈ cds, truthy cd.phoneNumber = true ∧
        c.phoneNumber = cd.phoneNumber) := by
  constructor
  · intro hall
    have hscan : cds.foldl
        (fun (acc : DB × List StructuredContact) cd =>
          if truthy cd.phoneNumber then
            match (if truthy cd.agentId then
                     acc.1.contacts.find? (fun c => c.agentId == cd.agentId)
                   else none) with
            | some ex => (connectContact acc.1 leadId ex.id, acc.2)
            | none => (acc.1, acc.2 ++ [cd])
          else acc)
        (db, []) = (db, []) := by
      induction cds with
      | nil => rfl
      | cons cd rest ih =>
        simp only [List.foldl_cons, hall cd (List.mem_cons_self cd rest),
          Bool.false_eq_true, if_false]
        exact ih (fun x hx => hall x (List.mem_cons_of_mem cd hx))
    rw [update_missing_structured]
    rw [hscan]
    rfl
  · intro c hc hnc
    have key : ∀ (start : DB × List StructuredContact) (rest : List StructuredContact),
        (∀ cd ∈ start.2, cd ∈ cds ∧ truthy cd.phoneNumber = true) →
        start.1.contacts = db.contacts →
        (∀ cd ∈ rest, cd ∈ cds) →
        let scan := rest.foldl
          (fun (acc : DB × List StructuredContact) cd =>
            if truthy cd.phoneNumber then
              match (if truthy cd.agentId then
                       acc.1.contacts.find? (fun c => c.agentId == cd.agentId)
                     else none) with
              | some ex => (connectContact acc.1 leadId ex.id, acc.2)
              | none => (acc.1, acc.2 ++ [cd])
            else acc) start
        (∀ cd ∈ scan.2, cd ∈ cds ∧ truthy cd.phoneNumber = true) ∧
        scan.1.contacts = db.contacts := by
      intro start rest
      induction rest generalizing start with
      | nil => intro h1 h2 _; exact ⟨h1, h2⟩
      | cons cd rest ih =>
        intro h1 h2 hmem
        simp only [List.foldl_cons]
        by_cases hph : truthy cd.phoneNumber
        · rw [if_pos hph]
          cases hf : (if truthy cd.agentId then
              start.1.contacts.find? (fun c => c.agentId == cd.agentId)
            else none) with
          | some ex =>
            exact ih (connectContact start.1 leadId ex.id, start.2) h1
              (by rw [connectContact_contacts]; exact h2)
              (fun x hx => hmem x (List.mem_cons_of_mem cd hx))
          | none =>
            refine ih (start.1, start.2 ++ [cd]) ?_ h2
              (fun x hx => hmem x (List.mem_cons_of_mem cd hx))
            intro x hx
            rcases List.mem_append.mp hx with hx | hx
            · exact h1 x hx
            · rw [List.mem_singleton.mp hx]
              exact ⟨hmem cd (List.mem_cons_self cd rest), hph⟩
        · rw [if_neg hph]
          exact ih start h1 h2 (fun x hx => hmem x (List.mem_cons_of_mem cd hx))
    have hscan := key (db, []) cds (by intro cd h; exact absurd h (List.not_mem_nil cd))
      rfl (fun _ h => h)
    revert hc
    rw [update_missing_structured]
    obtain ⟨hgood, hsame⟩ := hscan
    -- the creation loop over the scanned list
    generalize hpair : cds.foldl
        (fun (acc : DB × List StructuredContact) cd =>
          if truthy cd.phoneNumber then
            match (if truthy cd.agentId then
                     acc.1.contacts.find? (fun c => c.agentId == cd.agentId)
                   else none) with
            | some ex => (connectContact acc.1 leadId ex.id, acc.2)
            | none => (acc.1, acc.2 ++ [cd])
          else acc)
        (db, []) = pr at hgood hsame
    have hcreate : ∀ (toCreate : List StructuredContact) (d : DB),
        (∀ cd ∈ toCreate, cd ∈ cds ∧ truthy cd.phoneNumber = true) →
        (∀ x ∈ d.contacts, x ∈ db.contacts ∨
          ∃ cd ∈ cds, truthy cd.phoneNumber = true ∧ x.phoneNumber = cd.phoneNumber) →
        ∀ x ∈ (toCreate.foldl
          (fun d cd =>
            let r := createContact d (fun i =>
              { id := i
                agentId := cd.agentId
                name := cd.name
                phoneNumber := cd.phoneNumber
                typ := if cd.typ = "AGENT" then .AGENT else .BROKER
                licenseNo := cd.licenseNo
                company := cd.company })
            connectContact r.2 leadId r.1) d).contacts,
        x ∈ db.contacts ∨
          ∃ cd ∈ cds, truthy cd.phoneNumber = true ∧ x.phoneNumber = cd.phoneNumber := by
      intro toCreate
      induction toCreate with
      | nil => intro d _ hd x hx; exact hd x hx
      | cons cd rest ih =>
        intro d hgood2 hd x hx
        refine ih _ (fun y hy => hgood2 y (List.mem_cons_of_mem cd hy)) ?_ x hx
        intro y hy
        simp only [connectContact_contacts, createContact, List.mem_append,
          List.mem_singleton] at hy
        rcases hy with hy | hy
        · exact hd y hy
        · right
          obtain ⟨hin, hph⟩ := hgood2 cd (List.mem_cons_self cd rest)
          exact ⟨cd, hin, hph, by rw [hy]⟩
    intro hc
    have := hcreate pr.2 pr.1 hgood
      (fun x hx => Or.inl (hsame ▸ hx)) c hc
    rcases this with h | h
    · exact absurd h hnc
    · exact h

/-- C7 witness: `C7_structured_contacts` applied to a concrete store and a
list whose single entry lacks a phone — the store is unchanged. -/
theorem C7_witness :
    update_missing_structured
      { leads := [{ id := 1, zid := "a" }] } 1
      [{ name := some "Jane Smith" }] =
      { leads := [{ id := 1, zid := "a" }] } :=
  (C7_structured_contacts { leads := [{ id := 1, zid := "a" }] } 1
      [{ name := some "Jane Smith" }]).1 (by decide)

/-! ## Contact reconciliation of src/zillow_scraper.py (update_contact_info) -/

/-- One `contact_info` dict produced by `extract_contact_info` in
`src/zillow_scraper.py`. -/
structure ExtractedContactInfo where
  agentId : Option String := none
  name : Option String := none
  phoneNumber : Option String := none
  typ : ContactType := .AGENT
  licenseNo : Option String := none
  company : Option String := none
  deriving Repr, DecidableEq

/-- The update `data` applied to an existing Contact by
`update_contact_info` (`src/zillow_scraper.py` lines 348-356): each field
takes the candidate value when that value is truthy, falling back to the
existing value otherwise. -/
def update_contact_data (ci : ExtractedContactInfo) (ex : Contact) : Contact :=
  { ex with
    name := if truthy ci.name then ci.name else ex.name
    licenseNo := if truthy ci.licenseNo then ci.licenseNo else ex.licenseNo
    company := if truthy ci.company then ci.company else ex.company
    agentId := if truthy ci.agentId then ci.agentId else ex.agentId }

/-- The per-candidate body of `update_contact_info`
(`src/zillow_scraper.py` lines 327-377): look up by truthy agentId, then by
phone; update-and-connect an existing row, otherwise create-and-connect. -/
def update_contact_info_step (db : DB) (leadId : Nat)
    (ci : ExtractedContactInfo) : DB :=
  let byAgent := if truthy ci.agentId then
      db.contacts.find? (fun c => c.agentId == ci.agentId)
    else none
  let found := match byAgent with
    | some e => some e
    | none => db.contacts.find? (fun c => c.phoneNumber == ci.phoneNumber)
  match found with
  | some ex =>
    let newContacts :=
      db.contacts.map (fun c => if c.id = ex.id then update_contact_data ci c else c)
    connectContact { db with contacts := newContacts } leadId ex.id
  | none =>
    let r := createContact db (fun i =>
      { id := i
        agentId := ci.agentId
        name := ci.name
        phoneNumber := ci.phoneNumber
        typ := ci.typ
        licenseNo := ci.licenseNo
        company := ci.company })
    connectContact r.2 leadId r.1

/-- C10 counterexample: a candidate found by phone number whose name is
non-null overwrites the existing Contact's non-null name ("Jane Smith"
becomes "John Doe"), so non-null descriptive fields are not left unchanged. -/
theorem C10_counterexample :
    let ex : Contact :=
      { id := 1, name := some "Jane Smith",
        phoneNumber := some "(555) 123-4567" }
    let ci : ExtractedContactInfo :=
      { name := some "John Doe", phoneNumber := some "(555) 123-4567" }
    let db : DB :=
      { leads := [{ id := 1, zid := "a" }], contacts := [ex],
        nextContactId := 2 }
    ex.name ≠ none ∧ ex.name ≠ ci.name ∧
    ((update_contact_info_step db 1 ci).contacts.map Contact.name) =
      [some "John Doe"] := by
  decide

/-- C10 (amended): when reconciliation updates an existing Contact, each
descriptive field (name, licenseNo, company, agentId) takes the candidate
value whenever that value is non-null/non-empty — overwriting even a
non-null existing value — and keeps the existing value only when the
candidate value is falsy (so previously-null fields are backfilled);
phoneNumber, type and id are never touched by the update. -/
theorem C10_backfill (ci : ExtractedContactInfo) (ex : Contact) :
    (truthy ci.name = false → (update_contact_data ci ex).name = ex.name) ∧
    (truthy ci.name = true → (update_contact_data ci ex).name = ci.name) ∧
    (truthy ci.licenseNo = false →
      (update_contact_data ci ex).licenseNo = ex.licenseNo) ∧
    (truthy ci.licenseNo = true →
      (update_contact_data ci ex).licenseNo = ci.licenseNo) ∧
    (truthy ci.company = false →
      (update_contact_data ci ex).company = ex.company) ∧
    (truthy ci.company = true →
      (update_contact_data ci ex).company = ci.company) ∧
    (truthy ci.agentId = false →
      (update_contact_data ci ex).agentId = ex.agentId) ∧
    (truthy ci.agentId = true →
      (update_contact_data ci ex).agentId = ci.agentId) ∧
    (update_contact_data ci ex).phoneNumber = ex.phoneNumber ∧
    (update_contact_data ci ex).typ = ex.typ ∧
    (update_contact_data ci ex).id = ex.id := by
  refine ⟨?_, ?_, ?_, ?_, ?_, ?_, ?_, ?_, rfl, rfl, rfl⟩ <;>
    intro h <;> simp [update_contact_data, h]

/-- C10 witness: `C10_backfill` applied to a concrete candidate and row —
the null candidate license keeps the existing one, the non-null candidate
name wins. -/
theorem C10_witness :
    (update_contact_data
      { name := some "John Doe", phoneNumber := some "(555) 123-4567" }
      { id := 1, name := some "Jane Smith",
        licenseNo := some "DRE #1", phoneNumber := some "(555) 123-4567" }).licenseNo
      = some "DRE #1" ∧
    (update_contact_data
      { name := some "John Doe", phoneNumber := some "(555) 123-4567" }
      { id := 1, name := some "Jane Smith",
        licenseNo := some "DRE #1", phoneNumber := some "(555) 123-4567" }).name
      = some "John Doe" :=
  ⟨(C10_backfill
      { name := some "John Doe", phoneNumber := some "(555) 123-4567" }
      { id := 1, name := some "Jane Smith",
        licenseNo := some "DRE #1",
        phoneNumber := some "(555) 123-4567" }).2.2.1 (by decide),
   (C10_backfill
      { name := some "John Doe", phoneNumber := some "(555) 123-4567" }
      { id := 1, name := some "Jane Smith",
        licenseNo := some "DRE #1",
        phoneNumber := some "(555) 123-4567" }).2.1 (by decide)⟩

/-! ## The contact-resolution run: counter increments and ordering -/

/-- Observable events of the contact-resolution loop: the counter update
and the network fetch. -/
inductive Event where
  | incrAttempts (leadId : Nat)
  | fetch (url : String)
  deriving Repr, DecidableEq

/-- The attempt counter currently stored for a lead id (0 when absent). -/
def attemptsOf (db : DB) (id : Nat) : Nat :=
  ((findLeadById db id).map Lead.contactFetchAttempts).getD 0

/-- The per-lead body of `process_zillow_leads`
(`scraper_api_contacts.py` lines 350-366; `process_zillow_contacts` in
`zillow_complete_scraper.py` lines 885-898 has the same shape): the counter
is set to the selected snapshot value plus one, then the page is fetched,
then contacts are created from whatever was scraped. -/
def process_lead (db : DB) (lead : Lead) (fetched : Option AgentInfo) :
    DB × List Event :=
  let db1 := updateLead db lead.id
    (fun l => { l with contactFetchAttempts := lead.contactFetchAttempts + 1 })
  let db2 := match fetched with
    | some info => sapi_create_contacts db1 lead.id info
    | none => db1
  (db2, [Event.incrAttempts lead.id, Event.fetch (lead.link.getD "")])

/-- The trace block one lead contributes to the run. -/
def traceBlock (l : Lead) : List Event :=
  [Event.incrAttempts l.id, Event.fetch (l.link.getD "")]

/-- A full run over a selected batch: each lead is processed once, with
`f` giving the outcome of its network fetch. -/
def run_contacts (db : DB) (sel : List Lead) (f : Nat → Option AgentInfo) :
    DB × List Event :=
  match sel with
  | [] => (db, [])
  | l :: rest =>
    let r1 := process_lead db l (f l.id)
    let r2 := run_contacts r1.1 rest f
    (r2.1, r1.2 ++ r2.2)

/-- Updating one lead id commutes with the id-keyed lookup, provided the
update preserves the id. -/
theorem find?_id_map_update (leads : List Lead) (j : Nat) (f : Lead → Lead)
    (hf : ∀ l, (f l).id = l.id) (id : Nat) :
    (leads.map (fun l => if l.id = j then f l else l)).find?
        (fun l => l.id == id) =
      (leads.find? (fun l => l.id == id)).map
        (fun l => if l.id = j then f l else l) := by
  induction leads with
  | nil => rfl
  | cons a t ih =>
    have hpred : ((if a.id = j then f a else a).id == id) = (a.id == id) := by
      by_cases haj : a.id = j
      · rw [if_pos haj, hf]
      · rw [if_neg haj]
    simp only [List.map_cons, List.find?_cons, hpred]
    cases hc : (a.id == id) with
    | true => simp
    | false => exact ih

/-- Lookup at an id other than the updated one is unchanged. -/
theorem findLeadById_updateLead_ne (db : DB) (j : Nat) (f : Lead → Lead)
    (hf : ∀ l, (f l).id = l.id) (id : Nat) (hne : id ≠ j) :
    findLeadById (updateLead db j f) id = findLeadById db id := by
  simp only [findLeadById, updateLead]
  rw [find?_id_map_update db.leads j f hf id]
  cases hfind : db.leads.find? (fun l => l.id == id) with
  | none => rfl
  | some e =>
    have he : e.id = id := by
      have := List.find?_some hfind
      simpa [beq_iff_eq] using this
    rw [Option.map_some', if_neg (by rw [he]; exact hne)]

/-- An update preserving id and attempts preserves every stored counter. -/
theorem attemptsOf_updateLead (db : DB) (j : Nat) (f : Lead → Lead)
    (hf : ∀ l, (f l).id = l.id)
    (ha : ∀ l, (f l).contactFetchAttempts = l.contactFetchAttempts) (id : Nat) :
    attemptsOf (updateLead db j f) id = attemptsOf db id := by
  simp only [attemptsOf, findLeadById, updateLead]
  rw [find?_id_map_update db.leads j f hf id]
  cases hfind : db.leads.find? (fun l => l.id == id) with
  | none => rfl
  | some e =>
    simp only [Option.map_some', Option.getD_some]
    by_cases hej : e.id = j
    · rw [if_pos hej]; exact ha e
    · rw [if_neg hej]

/-- Connecting a contact never changes a lead's id. -/
theorem connect_id_invariant (cid : Nat) (l : Lead) :
    ((fun l : Lead => if l.contactIds.contains cid then l
        else { l with contactIds := l.contactIds ++ [cid] }) l).id = l.id := by
  show (if l.contactIds.contains cid then l
      else { l with contactIds := l.contactIds ++ [cid] }).id = l.id
  by_cases h : (l.contactIds.contains cid : Bool) = true
  · rw [if_pos h]
  · rw [if_neg h]

/-- Connecting a contact never changes a lead's attempt counter. -/
theorem connect_attempts_invariant (cid : Nat) (l : Lead) :
    ((fun l : Lead => if l.contactIds.contains cid then l
        else { l with contactIds := l.contactIds ++ [cid] }) l).contactFetchAttempts =
      l.contactFetchAttempts := by
  show (if l.contactIds.contains cid then l
      else { l with contactIds := l.contactIds ++ [cid] }).contactFetchAttempts =
    l.contactFetchAttempts
  by_cases h : (l.contactIds.contains cid : Bool) = true
  · rw [if_pos h]
  · rw [if_neg h]

/-- Linking a contact to a lead leaves every attempt counter unchanged. -/
theorem attemptsOf_connectContact (db : DB) (a b id : Nat) :
    attemptsOf (connectContact db a b) id = attemptsOf db id :=
  attemptsOf_updateLead db a _ (connect_id_invariant b)
    (connect_attempts_invariant b) id

/-- Creating a contact row leaves every attempt counter unchanged. -/
theorem attemptsOf_createContact (db : DB) (mk : Nat → Contact) (id : Nat) :
    attemptsOf (createContact db mk).2 id = attemptsOf db id := rfl

/-- A fold whose step preserves all counters preserves all counters. -/
theorem attemptsOf_foldl {α : Type} (g : DB → α → DB) (id : Nat)
    (hg : ∀ d x, attemptsOf (g d x) id = attemptsOf d id) :
    ∀ (xs : List α) (db : DB), attemptsOf (xs.foldl g db) id = attemptsOf db id := by
  intro xs
  induction xs with
  | nil => intro db; rfl
  | cons x t ih => intro db; rw [List.foldl_cons, ih, hg]

/-- The scraper_api contact creation touches no attempt counter. -/
theorem attemptsOf_sapi_create (db : DB) (leadId : Nat) (info : AgentInfo)
    (id : Nat) :
    attemptsOf (sapi_create_contacts db leadId info) id = attemptsOf db id := by
  rw [sapi_create_contacts]
  rw [attemptsOf_foldl _ id
    (fun d x => (attemptsOf_connectContact _ leadId _ id).trans
      (attemptsOf_createContact d _ id))]
  rw [attemptsOf_foldl _ id
    (fun d x => (attemptsOf_connectContact _ leadId _ id).trans
      (attemptsOf_createContact d _ id))]

/-- A fold whose step preserves the lookup at an id preserves it. -/
theorem findLeadById_foldl {α : Type} (g : DB → α → DB) (id : Nat)
    (hg : ∀ d x, findLeadById (g d x) id = findLeadById d id) :
    ∀ (xs : List α) (db : DB),
      findLeadById (xs.foldl g db) id = findLeadById db id := by
  intro xs
  induction xs with
  | nil => intro db; rfl
  | cons x t ih => intro db; rw [List.foldl_cons, ih, hg]

/-- Creating a contact row does not change the lead table. -/
theorem findLeadById_createContact (db : DB) (mk : Nat → Contact) (id : Nat) :
    findLeadById (createContact db mk).2 id = findLeadById db id := rfl

/-- The scraper_api contact creation leaves leads other than its own
unchanged. -/
theorem findLeadById_sapi_create_ne (db : DB) (leadId : Nat)
    (info : AgentInfo) (id : Nat) (hne : id ≠ leadId) :
    findLeadById (sapi_create_contacts db leadId info) id = findLeadById db id := by
  have hstep : ∀ (d : DB) (cid : Nat),
      findLeadById (connectContact d leadId cid) id = findLeadById d id :=
    fun d cid => findLeadById_updateLead_ne d leadId _
      (connect_id_invariant cid) id hne
  rw [sapi_create_contacts]
  rw [findLeadById_foldl _ id
    (fun d x => (hstep _ _).trans (findLeadById_createContact d _ id))]
  rw [findLeadById_foldl _ id
    (fun d x => (hstep _ _).trans (findLeadById_createContact d _ id))]

/-- Processing a lead leaves every other lead's record unchanged. -/
theorem findLeadById_process_lead_ne (db : DB) (l : Lead)
    (o : Option AgentInfo) (id : Nat) (hne : id ≠ l.id) :
    findLeadById (process_lead db l o).1 id = findLeadById db id := by
  cases o with
  | none =>
    exact findLeadById_updateLead_ne db l.id
      (fun x => { x with contactFetchAttempts := l.contactFetchAttempts + 1 })
      (fun x => rfl) id hne
  | some info =>
    show findLeadById (sapi_create_contacts (updateLead db l.id
        (fun x => { x with contactFetchAttempts := l.contactFetchAttempts + 1 }))
        l.id info) id = findLeadById db id
    rw [findLeadById_sapi_create_ne _ l.id info id hne]
    exact findLeadById_updateLead_ne db l.id
      (fun x => { x with contactFetchAttempts := l.contactFetchAttempts + 1 })
      (fun x => rfl) id hne

/-- Processing a lead whose stored record matches the selected snapshot sets
its counter to the snapshot value plus one, whatever the fetch outcome. -/
theorem attemptsOf_process_lead_self (db : DB) (l : Lead)
    (o : Option AgentInfo) (hfind : findLeadById db l.id = some l) :
    attemptsOf (process_lead db l o).1 l.id = l.contactFetchAttempts + 1 := by
  have hfind' : db.leads.find? (fun x => x.id == l.id) = some l := hfind
  have hupd : attemptsOf (updateLead db l.id
      (fun x => { x with contactFetchAttempts := l.contactFetchAttempts + 1 })) l.id
      = l.contactFetchAttempts + 1 := by
    simp only [attemptsOf, findLeadById, updateLead]
    rw [find?_id_map_update db.leads l.id
      (fun x => { x with contactFetchAttempts := l.contactFetchAttempts + 1 })
      (fun x => rfl) l.id, hfind']
    simp
  cases o with
  | none => exact hupd
  | some info =>
    show attemptsOf (sapi_create_contacts (updateLead db l.id
        (fun x => { x with contactFetchAttempts := l.contactFetchAttempts + 1 }))
        l.id info) l.id = l.contactFetchAttempts + 1
    rw [attemptsOf_sapi_create _ l.id info l.id]
    exact hupd

/-- In a list of leads with distinct ids, a member is found by its own id. -/
theorem find?_of_mem_nodup {leads : List Lead} {l : Lead}
    (hnodup : (leads.map Lead.id).Nodup) (hl : l ∈ leads) :
    leads.find? (fun x => x.id == l.id) = some l := by
  induction leads with
  | nil => exact absurd hl (List.not_mem_nil l)
  | cons a t ih =>
    simp only [List.map_cons, List.nodup_cons] at hnodup
    rcases List.mem_cons.mp hl with h | h
    · rw [h]
      simp [List.find?_cons]
    · have hne : (a.id == l.id) = false := by
        rw [beq_eq_false_iff_ne]
        intro hc
        exact hnodup.1 (hc ▸ List.mem_map_of_mem Lead.id h)
      simp only [List.find?_cons, hne]
      exact ih hnodup.2 h

/-- In a store whose lead ids are distinct, a lead is found by its own id. -/
theorem findLeadById_of_mem {db : DB} {l : Lead}
    (hnodup : (db.leads.map Lead.id).Nodup) (hl : l ∈ db.leads) :
    findLeadById db l.id = some l :=
  find?_of_mem_nodup hnodup hl

/-- Stores agreeing on a lookup agree on that counter. -/
theorem attemptsOf_congr {d1 d2 : DB} {id : Nat}
    (h : findLeadById d1 id = findLeadById d2 id) :
    attemptsOf d1 id = attemptsOf d2 id := by
  simp only [attemptsOf, h]

/-- The invariants of a whole run: each selected lead's counter ends at its
snapshot value plus one; untouched ids keep their records; counters never
decrease; the trace is the concatenation of the per-lead blocks. -/
theorem run_contacts_spec (sel : List Lead) :
    ∀ (db : DB) (f : Nat → Option AgentInfo),
    (∀ l ∈ sel, findLeadById db l.id = some l) →
    (sel.map Lead.id).Nodup →
    (∀ l ∈ sel, attemptsOf (run_contacts db sel f).1 l.id =
        l.contactFetchAttempts + 1) ∧
    (∀ id, id ∉ sel.map Lead.id →
        findLeadById (run_contacts db sel f).1 id = findLeadById db id) ∧
    (∀ id, attemptsOf db id ≤ attemptsOf (run_contacts db sel f).1 id) ∧
    (run_contacts db sel f).2 = sel.foldr (fun l t => traceBlock l ++ t) [] := by
  induction sel with
  | nil =>
    intro db f _ _
    exact ⟨fun l h => absurd h (List.not_mem_nil l),
           fun id _ => rfl, fun id => le_refl _, rfl⟩
  | cons m rest ih =>
    intro db f hfind hnodup
    simp only [List.map_cons, List.nodup_cons] at hnodup
    have hmfind : findLeadById db m.id = some m :=
      hfind m (List.mem_cons_self m rest)
    have hrestfind : ∀ l ∈ rest,
        findLeadById (process_lead db m (f m.id)).1 l.id = some l := by
      intro l hl
      have hne : l.id ≠ m.id := by
        intro hc
        exact hnodup.1 (hc ▸ List.mem_map_of_mem Lead.id hl)
      rw [findLeadById_process_lead_ne db m (f m.id) l.id hne]
      exact hfind l (List.mem_cons_of_mem m hl)
    obtain ⟨ih1, ih2, ih3, ih4⟩ :=
      ih (process_lead db m (f m.id)).1 f hrestfind hnodup.2
    refine ⟨?_, ?_, ?_, ?_⟩
    · intro l hl
      rcases List.mem_cons.mp hl with h | h
      · subst h
        show attemptsOf (run_contacts (process_lead db l (f l.id)).1 rest f).1
            l.id = l.contactFetchAttempts + 1
        rw [attemptsOf_congr (ih2 l.id hnodup.1)]
        exact attemptsOf_process_lead_self db l (f l.id) hmfind
      · exact ih1 l h
    · intro id hid
      simp only [List.map_cons, List.mem_cons, not_or] at hid
      show findLeadById (run_contacts (process_lead db m (f m.id)).1 rest f).1
          id = findLeadById db id
      rw [ih2 id hid.2]
      exact findLeadById_process_lead_ne db m (f m.id) id hid.1
    · intro id
      show attemptsOf db id ≤
        attemptsOf (run_contacts (process_lead db m (f m.id)).1 rest f).1 id
      by_cases hidm : id = m.id
      · have h1 : attemptsOf db id = m.contactFetchAttempts := by
          rw [hidm]
          simp [attemptsOf, hmfind]
        have h2 : attemptsOf (run_contacts (process_lead db m (f m.id)).1 rest f).1
            id = m.contactFetchAttempts + 1 := by
          rw [hidm, attemptsOf_congr (ih2 m.id hnodup.1)]
          exact attemptsOf_process_lead_self db m (f m.id) hmfind
        rw [h1, h2]
        exact Nat.le_succ _
      · calc attemptsOf db id
            = attemptsOf (process_lead db m (f m.id)).1 id :=
              (attemptsOf_congr
                (findLeadById_process_lead_ne db m (f m.id) id hidm)).symm
          _ ≤ _ := ih3 id
    · show (run_contacts db (m :: rest) f).2 = _
      rw [List.foldr_cons, ← ih4]
      rfl

/-- Distinct stored lead ids make the selected batch's ids distinct. -/
theorem sel_ids_nodup (db : DB) (hnodup : (db.leads.map Lead.id).Nodup) :
    ((process_zillow_leads_query db).map Lead.id).Nodup := by
  have hsub : (process_zillow_leads_query db).Sublist db.leads :=
    ((process_zillow_leads_filter db).take_sublist 15).trans
      (db.leads.filter_sublist)
  exact hnodup.sublist (hsub.map Lead.id)

/-- Every incrAttempts event a run emits for an id outside the batch: none. -/
theorem trace_count_zero (sel : List Lead) (id : Nat)
    (hid : id ∉ sel.map Lead.id) :
    (sel.foldr (fun l t => traceBlock l ++ t) []).count
      (Event.incrAttempts id) = 0 := by
  induction sel with
  | nil => rfl
  | cons m rest ih =>
    simp only [List.map_cons, List.mem_cons, not_or] at hid
    rw [List.foldr_cons, List.count_append, ih hid.2]
    simp [traceBlock, List.count_cons, hid.1, Ne.symm hid.1]

/-- A batch with distinct ids contributes exactly one incrAttempts event per
selected lead, and that event immediately precedes the lead's fetch event. -/
theorem trace_count_one (sel : List Lead) (hnodup : (sel.map Lead.id).Nodup) :
    ∀ l ∈ sel,
      (sel.foldr (fun x t => traceBlock x ++ t) []).count
        (Event.incrAttempts l.id) = 1 ∧
      ∃ pre post, (sel.foldr (fun x t => traceBlock x ++ t) []) =
        pre ++ Event.incrAttempts l.id ::
          Event.fetch (l.link.getD "") :: post := by
  induction sel with
  | nil => intro l h; exact absurd h (List.not_mem_nil l)
  | cons m rest ih =>
    intro l hl
    simp only [List.map_cons, List.nodup_cons] at hnodup
    rcases List.mem_cons.mp hl with h | h
    · subst h
      constructor
      · rw [List.foldr_cons, List.count_append,
          trace_count_zero rest l.id hnodup.1]
        simp [traceBlock, List.count_cons]
      · exact ⟨[], rest.foldr (fun x t => traceBlock x ++ t) [], rfl⟩
    · have hne : m.id ≠ l.id := by
        intro hc
        exact hnodup.1 (hc ▸ List.mem_map_of_mem Lead.id h)
      obtain ⟨hcount, pre, post, hdec⟩ := ih hnodup.2 l h
      constructor
      · rw [List.foldr_cons, List.count_append, hcount]
        simp [traceBlock, List.count_cons, hne, Ne.symm hne]
      · exact ⟨traceBlock m ++ pre, post, by
          rw [List.foldr_cons, hdec, List.append_assoc]⟩

/-- C4: in a store with distinct lead ids, a full run over the eligibility
selection increments each selected lead's counter exactly once (its stored
value goes from the snapshot value to snapshot + 1) regardless of the fetch
outcome; the trace holds exactly one increment event per selected lead,
placed immediately before the fetch it accounts for; and no lead's counter
ever decreases over the run. -/
theorem C4_attempt_counter (db : DB) (f : Nat → Option AgentInfo)
    (hnodup : (db.leads.map Lead.id).Nodup) :
    (∀ l ∈ process_zillow_leads_query db,
      attemptsOf db l.id = l.contactFetchAttempts ∧
      attemptsOf (run_contacts db (process_zillow_leads_query db) f).1 l.id =
        l.contactFetchAttempts + 1) ∧
    (∀ l ∈ process_zillow_leads_query db,
      (run_contacts db (process_zillow_leads_query db) f).2.count
          (Event.incrAttempts l.id) = 1 ∧
      ∃ pre post,
        (run_contacts db (process_zillow_leads_query db) f).2 =
          pre ++ Event.incrAttempts l.id ::
            Event.fetch (l.link.getD "") :: post) ∧
    (∀ id, attemptsOf db id ≤
      attemptsOf (run_contacts db (process_zillow_leads_query db) f).1 id) := by
  have hselsub : ∀ l ∈ process_zillow_leads_query db, l ∈ db.leads := by
    intro l hl
    exact List.mem_of_mem_filter (List.take_subset _ _ hl)
  have hselfind : ∀ l ∈ process_zillow_leads_query db,
      findLeadById db l.id = some l :=
    fun l hl => findLeadById_of_mem hnodup (hselsub l hl)
  have hselnodup := sel_ids_nodup db hnodup
  obtain ⟨h1, _, h3, h4⟩ :=
    run_contacts_spec (process_zillow_leads_query db) db f hselfind hselnodup
  refine ⟨?_, ?_, h3⟩
  · intro l hl
    refine ⟨?_, h1 l hl⟩
    simp [attemptsOf, hselfind l hl]
  · intro l hl
    rw [h4]
    exact trace_count_one (process_zillow_leads_query db) hselnodup l hl

/-- C4 witness: `C4_attempt_counter` on a concrete one-lead store — the
counter goes from 0 to 1. -/
theorem C4_witness :
    attemptsOf
      (run_contacts { leads := [{ id := 1, zid := "z", link := some "u" }] }
        (process_zillow_leads_query
          { leads := [{ id := 1, zid := "z", link := some "u" }] })
        (fun _ => none)).1 1 = 0 + 1 :=
  ((C4_attempt_counter { leads := [{ id := 1, zid := "z", link := some "u" }] }
      (fun _ => none) (by decide)).1
    { id := 1, zid := "z", link := some "u" } (by decide)).2

/-! ## Name and company plausibility filters (zillow_complete_scraper.py) -/

/-- The whitespace characters of Python's `str.split()` / regex `\s`. -/
def isPyWs (c : Char) : Bool :=
  c = ' ' || c = '\t' || c = '\n' || c = '\r' || c = '\x0b' || c = '\x0c'

/-- Split a character list at whitespace, keeping empty pieces. -/
def splitWsGo : List Char → List Char → List (List Char)
  | [], acc => [acc.reverse]
  | c :: rest, acc =>
    if isPyWs c then acc.reverse :: splitWsGo rest []
    else splitWsGo rest (c :: acc)

/-- Python `name.split()`: split at whitespace runs, dropping empty tokens. -/
def pySplit (s : String) : List String :=
  ((splitWsGo s.toList []).map (fun l => String.mk l)).filter (fun w => w ≠ "")

/-- The regex class `[A-Z]`. -/
def isUpperAZ (c : Char) : Bool := 'A' ≤ c && c ≤ 'Z'

/-- The regex class `[a-z]`. -/
def isLowerAZ (c : Char) : Bool := 'a' ≤ c && c ≤ 'z'

/-- The regex piece `[A-Z][a-z]+`: a capitalized word. -/
def capWord (w : String) : Bool :=
  match w.toList with
  | c :: rest => isUpperAZ c && !rest.isEmpty && rest.all isLowerAZ
  | [] => false

/-- The regex alternative `(?:PA|Jr|Sr|III|IV)`. -/
def suffixTok (w : String) : Bool :=
  w = "PA" || w = "Jr" || w = "Sr" || w = "III" || w = "IV"

/-- Token shapes accepted by the first name pattern of
`is_valid_agent_name` (`zillow_complete_scraper.py` line 669):
`^[A-Z][a-z]+\s+[A-Z][a-z]+(?:\s+[A-Z][a-z]+)?(?:\s+(?:PA|Jr|Sr|III|IV))?$`. -/
def pattern1Tokens : List String → Bool
  | [a, b] => capWord a && capWord b
  | [a, b, c] => capWord a && capWord b && (capWord c || suffixTok c)
  | [a, b, c, d] => capWord a && capWord b && capWord c && suffixTok d
  | _ => false

/-- The regex alternative `(?:De|Van|Von)`. -/
def nobiliary (w : String) : Bool := w = "De" || w = "Van" || w = "Von"

/-- Token shapes of the second name pattern (line 670):
`^[A-Z][a-z]+\s+(?:De|Van|Von)\s+[A-Z][a-z]+$`. -/
def pattern2Tokens : List String → Bool
  | [a, p, b] => capWord a && nobiliary p && capWord b
  | _ => false

/-- The anchors `^`/`$` of the name regexes: the string may not start or end
with whitespace (and is non-empty). -/
def noEdgeWs (s : String) : Bool :=
  match s.toList.head?, s.toList.getLast? with
  | some a, some b => !(isPyWs a) && !(isPyWs b)
  | _, _ => false

/-- `re.match` of the first name pattern, at token level: since every regex
piece is whitespace-free and the separators are `\s+`, a string matches iff
it has no edge whitespace and its whitespace-separated tokens fit. -/
def matchesNamePattern1 (s : String) : Bool :=
  noEdgeWs s && pattern1Tokens (pySplit s)

/-- `re.match` of the second name pattern, at token level. -/
def matchesNamePattern2 (s : String) : Bool :=
  noEdgeWs s && pattern2Tokens (pySplit s)

/-- Whether the needle matches at the front of the haystack. -/
def startsWithList : List Char → List Char → Bool
  | [], _ => true
  | _ :: _, [] => false
  | n :: ns, h :: hs => n = h && startsWithList ns hs

/-- Whether the needle occurs anywhere in the haystack (Python `in`). -/
def containsSub (needle : List Char) : List Char → Bool
  | [] => needle.isEmpty
  | c :: rest => startsWithList needle (c :: rest) || containsSub needle rest

/-- Python `needle in hay` on strings. -/
def containsSubstr (needle hay : String) : Bool :=
  containsSub needle.toList hay.toList

/-- Python `str.lower()` (ASCII). -/
def pyLower (s : String) : String :=
  String.mk (s.toList.map Char.toLower)

/-- The `real_estate_terms` list of `is_valid_company_name`
(`zillow_complete_scraper.py` lines 701-704). -/
def real_estate_terms : List String :=
  ["realty", "real estate", "properties", "group", "team", "associates",
   "realtors", "realtor", "brokerage", "re/max", "coldwell", "century"]

/-- `is_valid_company_name` (`zillow_complete_scraper.py` lines 695-706):
length 5-80 and a real-estate trade term somewhere in the lowercased text. -/
def is_valid_company_name (company : String) : Bool :=
  if company = "" ∨ company.length < 5 ∨ company.length > 80 then false
  else real_estate_terms.any (fun t => containsSubstr t (pyLower company))

/-- The `property_terms` stoplist of `is_valid_agent_name`
(`zillow_complete_scraper.py` lines 682-685). -/
def property_terms : List String :=
  ["electric", "water", "kitchen", "bedroom", "bathroom", "garage",
   "listing", "property", "home", "house", "price", "sold", "new"]

/-- Python `part.replace('.', '').replace('-', '')`. -/
def stripDotHyphen (w : String) : String :=
  String.mk (w.toList.filter (fun c => c ≠ '.' && c ≠ '-'))

/-- Python `str.isalpha()` (restricted to its ASCII behaviour): non-empty
and all letters. -/
def pyIsAlpha (w : String) : Bool :=
  !w.toList.isEmpty && w.toList.all (fun c => c.isAlpha)

/-- `is_valid_agent_name` (`zillow_complete_scraper.py` lines 658-693):
length 4-50, not a company name, then accepted outright if a name pattern
matches, otherwise 2-4 tokens, none in the stoplist, all alphabetic up to
periods/hyphens. -/
def is_valid_agent_name (name : String) : Bool :=
  if name = "" ∨ name.length < 4 ∨ name.length > 50 then false
  else if is_valid_company_name name then false
  else if matchesNamePattern1 name || matchesNamePattern2 name then true
  else
    let parts := pySplit name
    if parts.length < 2 ∨ parts.length > 4 then false
    else parts.all (fun p =>
      !(property_terms.contains (pyLower p)) && pyIsAlpha (stripDotHyphen p))

/-- C8 counterexample: `is_valid_agent_name` accepts "Gourmet Kitchen" and
"Corner Lot" — both match the capitalized-name fast path, which returns
before the property-jargon stoplist is consulted (and "corner"/"lot" are not
in the stoplist at all) — so the filter does not reject them as claimed. -/
theorem C8_counterexample :
    is_valid_agent_name "Gourmet Kitchen" = true ∧
    is_valid_agent_name "Corner Lot" = true := by
  decide

/-- C8 (amended): the filter rejects strings shorter than 4 or longer than
50 characters and any string passing the company filter; a string matching
the capitalized-name patterns is accepted immediately, bypassing the
stoplist (hence "Gourmet Kitchen" and "Corner Lot" are accepted); "Jane
Smith" is accepted; and only strings failing both patterns must have 2-4
whitespace tokens, each outside the stoplist and alphabetic up to internal
periods/hyphens. -/
theorem C8_name_filter :
    (∀ s : String, s.length < 4 → is_valid_agent_name s = false) ∧
    (∀ s : String, 50 < s.length → is_valid_agent_name s = false) ∧
    (∀ s : String, is_valid_company_name s = true →
      is_valid_agent_name s = false) ∧
    is_valid_agent_name "Jane Smith" = true ∧
    (∀ s : String,
      matchesNamePattern1 s = false → matchesNamePattern2 s = false →
      is_valid_agent_name s = true →
      2 ≤ (pySplit s).length ∧ (pySplit s).length ≤ 4 ∧
      ∀ p ∈ pySplit s, property_terms.contains (pyLower p) = false ∧
        pyIsAlpha (stripDotHyphen p) = true) := by
  refine ⟨?_, ?_, ?_, by decide, ?_⟩
  · intro s h
    rw [is_valid_agent_name, if_pos (Or.inr (Or.inl h))]
  · intro s h
    rw [is_valid_agent_name, if_pos (Or.inr (Or.inr h))]
  · intro s h
    rw [is_valid_agent_name]
    by_cases h0 : s = "" ∨ s.length < 4 ∨ s.length > 50
    · rw [if_pos h0]
    · rw [if_neg h0, if_pos h]
  · intro s h1 h2 hv
    rw [is_valid_agent_name] at hv
    by_cases h0 : s = "" ∨ s.length < 4 ∨ s.length > 50
    · rw [if_pos h0] at hv
      exact absurd hv (by simp)
    · rw [if_neg h0] at hv
      by_cases hc : is_valid_company_name s = true
      · rw [if_pos hc] at hv
        exact absurd hv (by simp)
      · rw [if_neg hc, h1, h2] at hv
        simp only [Bool.or_self, Bool.false_eq_true, if_false] at hv
        by_cases hl : (pySplit s).length < 2 ∨ (pySplit s).length > 4
        · rw [if_pos hl] at hv
          exact absurd hv (by simp)
        · rw [if_neg hl] at hv
          push_neg at hl
          refine ⟨hl.1, hl.2, ?_⟩
          intro p hp
          have := List.all_eq_true.mp hv p hp
          simp only [Bool.and_eq_true, Bool.not_eq_true'] at this
          exact this

/-- C8 witness: `C8_name_filter` applied at concrete strings — a too-short
string and a company-shaped string are rejected, "Jane Smith" is accepted,
and a hyphenated name passing only the fallback satisfies its conditions. -/
theorem C8_witness :
    is_valid_agent_name "abc" = false ∧
    is_valid_agent_name "Equity Realty Group" = false ∧
    2 ≤ (pySplit "Mary-Jane Smith").length :=
  ⟨C8_name_filter.1 "abc" (by decide),
   C8_name_filter.2.2.1 "Equity Realty Group" (by decide),
   (C8_name_filter.2.2.2.2 "Mary-Jane Smith" (by decide) (by decide)
      (by decide)).1⟩

/-! ## Run budget controller and signal handling (zillow_complete_scraper.py) -/

/-- The `ScraperState` class (`zillow_complete_scraper.py` lines 91-111),
with instants as naturals (now/startTime in the same clock). -/
structure ScraperState where
  startTime : Nat
  maxRuntime : Nat
  should_stop : Bool := false
  force_exit : Bool := false
  exitCode : Nat := 0
  deriving Repr, DecidableEq

/-- `is_timeout` (lines 100-101): elapsed time at or past the ceiling, or
the stop flag. -/
def ScraperState.is_timeout (st : ScraperState) (now : Nat) : Bool :=
  decide (st.maxRuntime ≤ now - st.startTime) || st.should_stop

/-- `set_exit` (lines 108-111): sets `force_exit`, the exit code and the
stop flag. -/
def ScraperState.set_exit (st : ScraperState) (code : Nat) : ScraperState :=
  { st with force_exit := true, exitCode := code, should_stop := true }

/-- The attributes the `ScraperState` class defines (its methods, besides
the constructor fields): there is no `set_timeout` among them. -/
def scraperStateAttrs : List String :=
  ["is_timeout", "remaining_minutes", "set_exit"]

/-- The first `signal_handler` (lines 127-131), which calls
`state.set_exit(0)`.  It is shadowed: the module later redefines
`setup_signal_handlers` (line 1088), and Python resolves the call in `main`
to that second definition. -/
def signal_handler_v1 (st : ScraperState) : ScraperState := st.set_exit 0

/-- The handler installed by the second `setup_signal_handlers` definition
(lines 1088-1106), the one actually registered: it invokes the attribute
"set_timeout" on the state.  `ScraperState` defines no such attribute, so
Python raises AttributeError before any flag is written; the state is
returned unchanged only in the (dead) branch where the attribute existed. -/
def signal_handler_v2 (st : ScraperState) : Except String ScraperState :=
  if scraperStateAttrs.contains "set_timeout" then .ok st
  else .error "AttributeError: ScraperState object has no attribute set_timeout"

/-- C9: delivering a stop signal while the budget is not yet exhausted runs
the installed handler, which fails with AttributeError (calling the
nonexistent `set_timeout`), so the stop flag stays unset and the next budget
check still returns false; the shadowed first handler would have set the
flag, making the budget check true as the claim (and the spec) intend. -/
theorem C9_signal_bug (st : ScraperState) (now : Nat)
    (hbudget : now - st.startTime < st.maxRuntime)
    (hflag : st.should_stop = false) :
    signal_handler_v2 st =
      .error "AttributeError: ScraperState object has no attribute set_timeout" ∧
    st.is_timeout now = false ∧
    (signal_handler_v1 st).is_timeout now = true := by
  refine ⟨rfl, ?_, ?_⟩
  · simp [ScraperState.is_timeout, hflag, Nat.not_le.mpr hbudget]
  · simp [ScraperState.is_timeout, signal_handler_v1, ScraperState.set_exit]

/-- C9 witness: `C9_signal_bug` at a concrete state ten time units into a
hundred-unit budget. -/
theorem C9_witness :
    ({ startTime := 0, maxRuntime := 100 } : ScraperState).is_timeout 10 = false ∧
    (signal_handler_v1
      { startTime := 0, maxRuntime := 100 }).is_timeout 10 = true :=
  ⟨(C9_signal_bug { startTime := 0, maxRuntime := 100 } 10
      (by decide) rfl).2.1,
   (C9_signal_bug { startTime := 0, maxRuntime := 100 } 10
      (by decide) rfl).2.2⟩

end RealMarketing
